import Mathlib

/-!
Shallow embedding of `rllib/algorithms/sac/sac.py`: the SAC configuration
surface (`SACConfig.validate`, `SACConfig.get_rollout_fragment_length`) and
the new-API-stack training loop orchestrator (`SAC.training_step`,
lines 446-564 of the source; the old-stack fallback on line 444 delegates to
DQN and is outside the extracted source).

External collaborators (env-runner workers, the replay buffer object, the
learner group) are modelled as oracles supplied in a `Collaborators` record;
the orchestrator's observable behaviour is captured as a trace of `Event`s
plus the updated counters and the returned metrics dict.  The custom
`reduce_fn` closure (source lines 496-518) is embedded over association-list
dicts.  Two pieces of repository code are not under the extracted source and
are modelled from the spec, as marked: `calculate_rr_weights` (imported from
`rllib/algorithms/dqn/dqn.py`) and the numeric validation performed by
`super().validate()` (the external config layer).
-/

/-- Decidable equality for `Except`, used to evaluate validation results on
concrete configurations. -/
instance {e a : Type} [DecidableEq e] [DecidableEq a] : DecidableEq (Except e a) :=
  fun x y =>
    match x, y with
    | Except.ok u, Except.ok v =>
      if h : u = v then isTrue (by rw [h]) else isFalse (by intro hc; cases hc; exact h rfl)
    | Except.error u, Except.error v =>
      if h : u = v then isTrue (by rw [h]) else isFalse (by intro hc; cases hc; exact h rfl)
    | Except.ok _, Except.error _ => isFalse (by intro hc; cases hc)
    | Except.error _, Except.ok _ => isFalse (by intro hc; cases hc)

/-- One episode collected from the environment.  Only its length
(`len(episode)`, its number of env/agent steps) is read by the orchestrator;
an id keeps distinct episodes distinct. -/
structure Episode where
  eid : Nat
  len : Nat
deriving DecidableEq

/-- The cumulative counters of `self._counters` read or written by
`training_step`: NUM_AGENT_STEPS_SAMPLED, NUM_ENV_STEPS_SAMPLED,
NUM_AGENT_STEPS_TRAINED, NUM_ENV_STEPS_TRAINED, LAST_TARGET_UPDATE_TS. -/
structure Counters where
  numAgentStepsSampled : Nat
  numEnvStepsSampled : Nat
  numAgentStepsTrained : Nat
  numEnvStepsTrained : Nat
  lastTargetUpdateTs : Nat
deriving DecidableEq

/-- The `rollout_fragment_length` setting: the string "auto" or an int. -/
inductive RolloutFragment where
  | auto
  | value (n : Int)
deriving DecidableEq

/-- The configuration fields consumed by the embedded code
(`SACConfig.__init__` defaults document the types; values are inputs). -/
structure SACConfig where
  in_evaluation : Bool
  rollout_fragment_length : RolloutFragment
  n_step : Int
  grad_clip : Option ℚ
  uses_new_env_runners : Bool
  replay_buffer_type : String
  capacity : Int
  prioritized_replay_alpha : ℚ
  tau : ℚ
  gamma : ℚ
  count_steps_by : String
  num_steps_sampled_before_learning_starts : Nat
  train_batch_size : Nat
  training_intensity : Option ℚ
  target_network_update_freq : Nat
  num_parallel_collectors : Nat
deriving DecidableEq

/-- The distinct `ValueError` / invalid-configuration outcomes of
validation. -/
inductive ConfigError where
  | invalidCapacity
  | invalidAlpha
  | invalidTau
  | invalidNStep
  | rolloutFragmentTooSmall
  | gradClipNonPositive
  | wrongBufferType
deriving DecidableEq

/-- Modelled from the spec: the numeric validation performed by the external
config layer (`super().validate()` on source line 327; `AlgorithmConfig` is
repository code not under the extracted source).  Spec section 6: the config
layer validates capacity>0-ish, 0<=alpha, 0<tau<=1, n_step>=1; section 7:
`InvalidConfigurationError`: malformed numeric parameters (negative capacity,
alpha<0, tau outside (0,1], n_step<1) raised at construction, never silently
clamped. -/
def externalConfigValidate (c : SACConfig) : Except ConfigError Unit :=
  if c.capacity < 0 then Except.error ConfigError.invalidCapacity
  else if c.prioritized_replay_alpha < 0 then Except.error ConfigError.invalidAlpha
  else if c.tau ≤ 0 ∨ 1 < c.tau then Except.error ConfigError.invalidTau
  else if c.n_step < 1 then Except.error ConfigError.invalidNStep
  else Except.ok ()

/-- Source lines 330-334: the guard of the first `raise ValueError` in
`SACConfig.validate` (non-evaluation config with an explicit
`rollout_fragment_length` smaller than `n_step`). -/
def SACConfig.rolloutFragmentTooSmallB (c : SACConfig) : Bool :=
  !c.in_evaluation &&
    (match c.rollout_fragment_length with
     | RolloutFragment.auto => false
     | RolloutFragment.value n => decide (n < c.n_step))

/-- `SACConfig.validate` (source lines 324-369): `super().validate()`, then
the rollout-fragment-vs-n_step check, the `grad_clip` check and the
new-EnvRunner replay-buffer-type check.  The deprecation warning for
`use_state_preprocessor` (lines 341-346) and the tensorflow-probability
warning (lines 351-358) do not raise and are omitted.  Validation only
raises or passes; it never writes back modified numeric values. -/
def SACConfig.validate (c : SACConfig) : Except ConfigError Unit :=
  match externalConfigValidate c with
  | Except.error e => Except.error e
  | Except.ok _ =>
    if c.rolloutFragmentTooSmallB then Except.error ConfigError.rolloutFragmentTooSmall
    else if (match c.grad_clip with
             | some g => decide (g ≤ 0)
             | none => false) then Except.error ConfigError.gradClipNonPositive
    else if c.uses_new_env_runners &&
        !(c.replay_buffer_type == "EpisodeReplayBuffer" ||
          c.replay_buffer_type == "PrioritizedEpisodeReplayBuffer") then
      Except.error ConfigError.wrongBufferType
    else Except.ok ()

/-- `SACConfig.get_rollout_fragment_length` (source lines 371-376):
"auto" resolves to `n_step`, an explicit value is returned as-is. -/
def SACConfig.get_rollout_fragment_length (c : SACConfig) : Int :=
  match c.rollout_fragment_length with
  | RolloutFragment.auto => c.n_step
  | RolloutFragment.value n => n

/-- Modelled from the spec: `calculate_rr_weights` is imported from
`rllib/algorithms/dqn/dqn.py`, repository code not under the extracted
source.  Spec section 4.2: given target intensity `I` (or None meaning the
natural ratio `train_batch_size / (rollout_fragment_length *
num_parallel_collectors)`), compute an integer pair (collect_rounds,
train_rounds) with train_rounds/collect_rounds approximating
`I / natural_ratio`, using smallest-integer-ratio (gcd) reduction;
deterministic in the configuration.  `Rat` is stored in lowest terms, so
(denominator, numerator) is exactly the gcd-reduced pair. -/
def calculate_rr_weights (c : SACConfig) : Nat × Nat :=
  match c.training_intensity with
  | none => (1, 1)
  | some i =>
    let naturalValue : ℚ :=
      (c.train_batch_size : ℚ) /
        ((c.get_rollout_fragment_length : ℚ) * (c.num_parallel_collectors : ℚ))
    let rr : ℚ := i / naturalValue
    (rr.den, rr.num.toNat)

/-- A metric value inside a result dict: a scalar, a numpy-like array, or
Python `None` (the placeholder zipped against the aggregate key in
`reduce_fn`). -/
inductive MVal where
  | scalar (q : ℚ)
  | array (a : List ℚ)
  | vnone
deriving DecidableEq

/-- The metrics of one module: an insertion-ordered dict of metric name to
value. -/
abbrev ModuleDict := List (String × MVal)

/-- A per-module result dict: module id (or the aggregate key "__all__") to
its metrics dict. -/
abbrev ResultDict := List (String × ModuleDict)

/-- First value stored under key `k`; `d[k]` / `d.get(k)` on an
insertion-ordered dict. -/
def lookupA {α : Type} (d : List (String × α)) (k : String) : Option α :=
  match d.find? (fun kv => kv.1 == k) with
  | some kv => some kv.2
  | none => none

/-- Setting one key in an insertion-ordered dict: overwrite in place if the
key exists, append otherwise (Python dict assignment semantics). -/
def updAssoc {α : Type} (d : List (String × α)) (k : String) (v : α) :
    List (String × α) :=
  if d.any (fun kv => kv.1 == k) then
    d.map (fun kv => if kv.1 == k then (kv.1, v) else kv)
  else d ++ [(k, v)]

/-- `{**d, **e}` / `d.update(e)`: fold `e`'s entries into `d`. -/
def dictUpdate {α : Type} (d e : List (String × α)) : List (String × α) :=
  e.foldl (fun acc kv => updAssoc acc kv.1 kv.2) d

/-- Option-valued map over a list; `none` as soon as `f` fails (models a
Python exception inside a comprehension / tree map). -/
def mapO {α β : Type} (f : α → Option β) : List α → Option (List β)
  | [] => some []
  | a :: l =>
    match f a, mapO f l with
    | some b, some l' => some (b :: l')
    | _, _ => none

/-- The scalar leaves of a metric value, as flattened by `np.mean`. -/
def MVal.flat : MVal → List ℚ
  | MVal.scalar q => [q]
  | MVal.array a => a
  | MVal.vnone => []

/-- Shape compatibility of two leaves under `np.mean` of a tuple. -/
def MVal.sameShape : MVal → MVal → Bool
  | MVal.scalar _, MVal.scalar _ => true
  | MVal.array a, MVal.array b => a.length == b.length
  | MVal.vnone, MVal.vnone => true
  | _, _ => false

/-- Arithmetic mean of a list of rationals. -/
def listMean (l : List ℚ) : ℚ := l.sum / (l.length : ℚ)

/-- `np.mean(x)` where `x` is the tuple of corresponding leaves from the
structures being reduced: flattens everything and returns the scalar mean.
`none` models the numpy failure modes (no leaves, mismatched shapes,
non-numeric `None`). -/
def meanLeaf (vs : List MVal) : Option MVal :=
  match vs with
  | [] => none
  | MVal.vnone :: _ => none
  | v :: rest =>
    if rest.all (MVal.sameShape v) && !(List.flatten (vs.map MVal.flat)).isEmpty then
      some (MVal.scalar (listMean (List.flatten (vs.map MVal.flat))))
    else none

/-- `tree.map_structure(lambda *x: np.mean(x), ...)` at the level of one
module's metrics dicts: the structures must match (same key sets), and each
leaf becomes the flattened mean; `none` models the structure-mismatch
exception. -/
def reduceModule (ms : List ModuleDict) : Option ModuleDict :=
  match ms with
  | [] => none
  | m0 :: rest =>
    if rest.all (fun m => m.length == m0.length) then
      mapO (fun kv =>
        match mapO (fun m => lookupA m kv.1) (m0 :: rest) with
        | some vs =>
          match meanLeaf vs with
          | some v => some (kv.1, v)
          | none => none
        | none => none) m0
    else none

/-- `reduced_results = tree.map_structure(lambda *x: np.mean(x), *results)`
(source lines 507-509), one level up: reduce the per-module dicts of all
result dicts; keyed like the first result. -/
def reduceAll (results : List ResultDict) : Option ResultDict :=
  match results with
  | [] => none
  | r0 :: rest =>
    if rest.all (fun r => r.length == r0.length) then
      mapO (fun kv =>
        match mapO (fun r => lookupA r kv.1) (r0 :: rest) with
        | some ms =>
          match reduceModule ms with
          | some m => some (kv.1, m)
          | none => none
        | none => none) r0
    else none

/-- `module_results = [v for res in results for k, v in res.items() if
k != "__all__"]` (source lines 499-501). -/
def moduleResultsOf (results : List ResultDict) : List ModuleDict :=
  List.flatten (results.map (fun res =>
    (res.filter (fun kv => !(kv.1 == "__all__"))).map (fun kv => kv.2)))

/-- The `reduce_fn` closure of `training_step` (source lines 496-518).
`tree.map_structure_up_to({"td_error": True}, lambda x: x, *module_results)`
extracts the raw `td_error` entry; its `lambda x: x` accepts a single
structure, so the call (and hence `reduce_fn`) only succeeds when exactly
one non-aggregate module result is present - other arities raise, modelled
as `none`.  The final comprehension zips the reduced dict against
`[None] + list(td_errors.values())`, keeping the aggregate entry as-is and
re-attaching the raw td-error array to the module entry. -/
def reduce_fn (results : List ResultDict) : Option ResultDict :=
  match moduleResultsOf results with
  | [m] =>
    match lookupA m "td_error" with
    | some td =>
      match reduceAll results with
      | some reduced =>
        some ((reduced.zip [MVal.vnone, td]).map
          (fun p =>
            if p.1.1 == "__all__" then p.1
            else (p.1.1, dictUpdate p.1.2 [("td_error", p.2)])))
      | none => none
    | none => none
  | _ => none

/-- `for pid, res in additional_results.items():
train_results[pid].update(res)` (source lines 544-545).  `none` models the
`KeyError` when a pid is absent from `train_results`. -/
def mergeAdditional (tr : ResultDict) : ResultDict → Option ResultDict
  | [] => some tr
  | pr :: rest =>
    if tr.any (fun kv => kv.1 == pr.1) then
      mergeAdditional
        (tr.map (fun kv =>
          if kv.1 == pr.1 then (kv.1, dictUpdate kv.2 pr.2) else kv)) rest
    else none

/-- The training batch drawn from the replay buffer, as seen by the
orchestrator: its `agent_steps()` and `env_steps()` counts. -/
structure TrainBatch where
  agent_steps : Nat
  env_steps : Nat
deriving DecidableEq

/-- The external collaborators of `training_step`, supplied as oracles:
the worker set (local sampling and per-remote-worker sampling results for
each collect round), the replay buffer's sampled batch, and the learner
group's raw per-learner results and `additional_update` results for each
train round. -/
structure Collaborators where
  numRemoteWorkers : Nat
  localSample : Nat → List Episode
  remoteSample : Nat → Nat → List Episode
  sampleBatch : Nat → TrainBatch
  learnerRaw : Nat → List ResultDict
  additionalUpdate : Nat → ResultDict

/-- Observable actions of one `training_step` call, in order. -/
inductive Event where
  | sampleLocal (round : Nat)
  | sampleRemote (round worker : Nat)
  | bufferAdd (round : Nat) (eps : List Episode)
  | bufferSample (round : Nat) (num_items : Nat) (n_step : Int) (gamma : ℚ)
  | learnerUpdate (round : Nat)
  | priorityUpdate (round : Nat)
  | targetUpdate (round : Nat) (timestep last_update : Nat)
  | syncRemoteWeights
  | setLocalWeights
deriving DecidableEq

/-- Number of events in a trace satisfying a predicate. -/
def countEv (tr : List Event) (p : Event → Bool) : Nat := (tr.filter p).length

/-- Recognizer for `bufferAdd` events. -/
def Event.isBufferAdd : Event → Bool
  | Event.bufferAdd _ _ => true
  | _ => false

/-- Recognizer for `bufferSample` events. -/
def Event.isBufferSample : Event → Bool
  | Event.bufferSample _ _ _ _ => true
  | _ => false

/-- Recognizer for `learnerUpdate` events. -/
def Event.isLearnerUpdate : Event → Bool
  | Event.learnerUpdate _ => true
  | _ => false

/-- Recognizer for `priorityUpdate` events. -/
def Event.isPriorityUpdate : Event → Bool
  | Event.priorityUpdate _ => true
  | _ => false

/-- Recognizer for `targetUpdate` events. -/
def Event.isTargetUpdate : Event → Bool
  | Event.targetUpdate _ _ _ => true
  | _ => false

/-- One sampling round (source lines 452-464): with no remote workers the
local worker is sampled once (and the singleton wrapping is flattened);
otherwise sampling fans out over every remote worker and the per-worker
lists are flattened (`tree.flatten`) into one episode list. -/
def collectRound (col : Collaborators) (r : Nat) : List Episode × List Event :=
  if col.numRemoteWorkers ≤ 0 then
    (List.flatten [col.localSample r], [Event.sampleLocal r])
  else
    (List.flatten ((List.range col.numRemoteWorkers).map (col.remoteSample r)),
     (List.range col.numRemoteWorkers).map (Event.sampleRemote r))

/-- Total steps of a list of episodes: `sum(len(e) for e in episodes)`. -/
def episodeSteps (eps : List Episode) : Nat := (eps.map Episode.len).sum

/-- The events of collect round `r`: the sampling calls followed by the
replay-buffer `add` of the flattened episode list (source line 470). -/
def collectRoundEvents (col : Collaborators) (r : Nat) : List Event :=
  (collectRound col r).2 ++ [Event.bufferAdd r (collectRound col r).1]

/-- The event trace of `k` collect rounds starting at round index `r`. -/
def collectTrace (col : Collaborators) (r : Nat) : Nat → List Event
  | 0 => []
  | Nat.succ k => collectRoundEvents col r ++ collectTrace col (r + 1) k

/-- Total steps sampled over `k` collect rounds starting at round `r`. -/
def collectedSteps (col : Collaborators) (r : Nat) : Nat → Nat
  | 0 => 0
  | Nat.succ k => episodeSteps (collectRound col r).1 + collectedSteps col (r + 1) k

/-- Counter updates of the collect phase (source lines 466-467): both
NUM_AGENT_STEPS_SAMPLED and NUM_ENV_STEPS_SAMPLED grow by the summed episode
lengths of each round. -/
def collectCounters (col : Collaborators) (r : Nat) : Nat → Counters → Counters
  | 0, c => c
  | Nat.succ k, c =>
    collectCounters col (r + 1) k
      { c with
        numAgentStepsSampled :=
          c.numAgentStepsSampled + episodeSteps (collectRound col r).1,
        numEnvStepsSampled :=
          c.numEnvStepsSampled + episodeSteps (collectRound col r).1 }

/-- The counters after the COLLECT phase of one `training_step` call. -/
def countersAfterCollect (cfg : SACConfig) (col : Collaborators) (c0 : Counters) :
    Counters :=
  collectCounters col 0 (calculate_rr_weights cfg).1 c0

/-- `current_ts` (source lines 472-477): the post-collect cumulative sampled
step count, in agent steps or env steps per `count_steps_by`. -/
def currentTsAfterCollect (cfg : SACConfig) (col : Collaborators) (c0 : Counters) :
    Nat :=
  if cfg.count_steps_by == "agent_steps" then
    (countersAfterCollect cfg col c0).numAgentStepsSampled
  else
    (countersAfterCollect cfg col c0).numEnvStepsSampled

/-- The loop state of the TRAIN phase: counters, the (overwritten each
round) `train_results`, and `modules_to_update` (`none` while the Python
variable is still unbound). -/
structure TrainState where
  counters : Counters
  train_results : ResultDict
  modules_to_update : Option (List String)
deriving DecidableEq

/-- Counter updates of one training round (source lines 526-527):
NUM_AGENT_STEPS_TRAINED and NUM_ENV_STEPS_TRAINED grow by the batch's
`agent_steps()` / `env_steps()`. -/
def bumpTrained (c : Counters) (b : TrainBatch) : Counters :=
  { c with numAgentStepsTrained := c.numAgentStepsTrained + b.agent_steps,
           numEnvStepsTrained := c.numEnvStepsTrained + b.env_steps }

/-- `modules_to_update = set(train_results.keys()) - {ALL_MODULES}`
(source line 538), kept in insertion order. -/
def modsOf (results : ResultDict) : List String :=
  (results.map (fun kv => kv.1)).filter (fun k => !(k == "__all__"))

/-- The events of one successful training round, in source order: buffer
`sample` (lines 484-488), learner `update_from_batch` (line 521), priority
update (line 530), and `additional_update` with
`timestep=NUM_AGENT_STEPS_SAMPLED`, `last_update=LAST_TARGET_UPDATE_TS`
(lines 539-543; the trained-step bump in between leaves both of those
counter fields unchanged, so they are read off the round's entry state). -/
def trainRoundEvents (cfg : SACConfig) (r : Nat) (ts : TrainState) : List Event :=
  [Event.bufferSample r cfg.train_batch_size cfg.n_step cfg.gamma,
   Event.learnerUpdate r, Event.priorityUpdate r,
   Event.targetUpdate r ts.counters.numAgentStepsSampled
     ts.counters.lastTargetUpdateTs]

/-- One training round (source lines 482-545): buffer `sample`, learner
`update_from_batch` with `reduce_fn`, trained-step counters, priority
update, and `additional_update` merged into the results.  The Bool is
false when a collaborator-side exception (failed `reduce_fn` reduction or
`KeyError` while merging) aborts the round. -/
def trainRound (cfg : SACConfig) (col : Collaborators) (r : Nat)
    (ts : TrainState) : TrainState × List Event × Bool :=
  match reduce_fn (col.learnerRaw r) with
  | none =>
    (ts,
     [Event.bufferSample r cfg.train_batch_size cfg.n_step cfg.gamma,
      Event.learnerUpdate r], false)
  | some results =>
    match mergeAdditional results (col.additionalUpdate r) with
    | none =>
      ({ counters := bumpTrained ts.counters (col.sampleBatch r),
         train_results := results, modules_to_update := some (modsOf results) },
       trainRoundEvents cfg r ts, false)
    | some merged =>
      ({ counters := bumpTrained ts.counters (col.sampleBatch r),
         train_results := merged, modules_to_update := some (modsOf results) },
       trainRoundEvents cfg r ts, true)

/-- The TRAIN phase: `k` training rounds starting at round index `r`,
stopping at the first failed round; the loop threads the state and
concatenates the round events. -/
def trainLoop (cfg : SACConfig) (col : Collaborators) (r : Nat) :
    Nat → TrainState → TrainState × List Event × Bool
  | 0, ts => (ts, [], true)
  | Nat.succ k, ts =>
    if (trainRound cfg col r ts).2.2 then
      ((trainLoop cfg col (r + 1) k (trainRound cfg col r ts).1).1,
       (trainRound cfg col r ts).2.1 ++
         (trainLoop cfg col (r + 1) k (trainRound cfg col r ts).1).2.1,
       (trainLoop cfg col (r + 1) k (trainRound cfg col r ts).1).2.2)
    else ((trainRound cfg col r ts).1, (trainRound cfg col r ts).2.1, false)

/-- The outcome of one `training_step` call: updated counters, the returned
metrics dict (`none` when an exception escaped instead of a return), and
the event trace up to the return or the exception. -/
structure StepOutcome where
  counters : Counters
  results : Option ResultDict
  trace : List Event
deriving DecidableEq

/-- `SAC.training_step`, new API stack (source lines 446-564): compute the
round-robin weights, run the COLLECT rounds, gate on
`num_steps_sampled_before_learning_starts`, run the TRAIN rounds, then
broadcast weights (`sync_weights` to remote workers when any exist,
otherwise `set_weights` of the learner weights on the local worker - the
broadcast references `modules_to_update`, unbound (`NameError`) if no train
round ran), and return `train_results` (`{}` when the gate blocked
training).  Split into three named pieces so theorems can speak about the
TRAIN-phase entry state, the loop outcome and the collect trace. -/
def initTrainState (cfg : SACConfig) (col : Collaborators) (c0 : Counters) :
    TrainState :=
  { counters := countersAfterCollect cfg col c0, train_results := [],
    modules_to_update := none }

/-- The outcome of the TRAIN phase of one `training_step` call:
`train_rounds` rounds starting from the post-collect state. -/
def theLoop (cfg : SACConfig) (col : Collaborators) (c0 : Counters) :
    TrainState × List Event × Bool :=
  trainLoop cfg col 0 (calculate_rr_weights cfg).2 (initTrainState cfg col c0)

/-- The COLLECT-phase trace of one `training_step` call. -/
def ctraceOf (cfg : SACConfig) (col : Collaborators) : List Event :=
  collectTrace col 0 (calculate_rr_weights cfg).1

/-- `SAC.training_step` itself; see the comment above for the source map. -/
def SAC.training_step (cfg : SACConfig) (col : Collaborators) (c0 : Counters) :
    StepOutcome :=
  if cfg.num_steps_sampled_before_learning_starts ≤ currentTsAfterCollect cfg col c0 then
    if (theLoop cfg col c0).2.2 then
      if 0 < col.numRemoteWorkers then
        match (theLoop cfg col c0).1.modules_to_update with
        | none =>
          { counters := (theLoop cfg col c0).1.counters, results := none,
            trace := ctraceOf cfg col ++ (theLoop cfg col c0).2.1 }
        | some _ =>
          { counters := (theLoop cfg col c0).1.counters,
            results := some (theLoop cfg col c0).1.train_results,
            trace := ctraceOf cfg col ++ (theLoop cfg col c0).2.1 ++
              [Event.syncRemoteWeights] }
      else
        { counters := (theLoop cfg col c0).1.counters,
          results := some (theLoop cfg col c0).1.train_results,
          trace := ctraceOf cfg col ++ (theLoop cfg col c0).2.1 ++
            [Event.setLocalWeights] }
    else
      { counters := (theLoop cfg col c0).1.counters, results := none,
        trace := ctraceOf cfg col ++ (theLoop cfg col c0).2.1 }
  else
    { counters := countersAfterCollect cfg col c0, results := some [],
      trace := ctraceOf cfg col }

/-- A concrete episode of length 5 for concrete runs. -/
def epA : Episode := { eid := 0, len := 5 }

/-- A concrete raw learner result: the aggregate entry plus one module
"m0" reporting a loss and a td-error array. -/
def rawResultA : ResultDict :=
  [("__all__", [("loss", MVal.scalar 1)]),
   ("m0", [("loss", MVal.scalar 2), ("td_error", MVal.array [1, 2])])]

/-- Concrete collaborators: a single local worker producing one length-5
episode per round, a buffer yielding batches of 2 agent/env steps, a
learner returning `rawResultA`, and a synchronizer reporting one metric for
module "m0". -/
def colA : Collaborators :=
  { numRemoteWorkers := 0
    localSample := fun _ => [epA]
    remoteSample := fun _ _ => []
    sampleBatch := fun _ => { agent_steps := 2, env_steps := 2 }
    learnerRaw := fun _ => [rawResultA]
    additionalUpdate := fun _ => [("m0", [("sync", MVal.scalar 0)])] }

/-- A concrete well-formed configuration whose warm-up threshold is 0, so
training starts immediately; natural round-robin weights (1, 1). -/
def cfgA : SACConfig :=
  { in_evaluation := false
    rollout_fragment_length := RolloutFragment.auto
    n_step := 1
    grad_clip := none
    uses_new_env_runners := true
    replay_buffer_type := "PrioritizedEpisodeReplayBuffer"
    capacity := 1000000
    prioritized_replay_alpha := 6 / 10
    tau := 1 / 200
    gamma := 1
    count_steps_by := "agent_steps"
    num_steps_sampled_before_learning_starts := 0
    train_batch_size := 256
    training_intensity := none
    target_network_update_freq := 480
    num_parallel_collectors := 1 }

/-- All counters zero: process start. -/
def counters0 : Counters :=
  { numAgentStepsSampled := 0, numEnvStepsSampled := 0,
    numAgentStepsTrained := 0, numEnvStepsTrained := 0,
    lastTargetUpdateTs := 0 }

/-- `cfgA` with the spec scenario's warm-up threshold of 100 steps. -/
def cfgW : SACConfig :=
  { cfgA with num_steps_sampled_before_learning_starts := 100 }

/-- Collaborators whose one collect round yields a 50-step episode (the
spec's end-to-end warm-up scenario: 50 steps collected, threshold 100). -/
def colW : Collaborators :=
  { colA with localSample := fun _ => [{ eid := 1, len := 50 }] }

/-- The metrics dict `training_step cfgA colA counters0` returns: the
reduced learner metrics (each scalar the mean of the corresponding leaf
values) with the td-error array re-attached and the synchronizer metric
merged into module "m0". -/
def resultA : ResultDict :=
  [("__all__", [("loss", MVal.scalar (listMean [1]))]),
   ("m0", [("loss", MVal.scalar (listMean [2])), ("td_error", MVal.array [1, 2]),
           ("sync", MVal.scalar 0)])]

/-- `cfgA` with a negative replay capacity: C7's concrete malformed
configuration. -/
def cfgBadCapacity : SACConfig := { cfgA with capacity := -1 }

/-- A non-evaluation configuration with an explicit rollout fragment length
0 smaller than n_step 3 but well-formed numerics: C9's concrete input. -/
def cfgSmallFragment : SACConfig :=
  { cfgA with rollout_fragment_length := RolloutFragment.value 0, n_step := 3 }

/-- Counting events distributes over trace concatenation. -/
theorem countEv_append (a b : List Event) (p : Event → Bool) :
    countEv (a ++ b) p = countEv a p + countEv b p := by
  simp [countEv, List.filter_append]

/-- A trace with no event satisfying `p` counts zero. -/
theorem countEv_zero (p : Event → Bool) (l : List Event)
    (h : ∀ e ∈ l, p e = false) : countEv l p = 0 := by
  induction l with
  | nil => rfl
  | cons e t ih =>
    have he : p e = false := h e (by simp)
    have ht := ih (fun x hx => h x (by simp [hx]))
    unfold countEv at ht ⊢
    rw [List.filter_cons, he]
    simpa using ht

/-- The sampling events of one collect round: one local sample with no
remote workers, otherwise one sample per remote worker. -/
theorem collectRound_snd_shape (col : Collaborators) (r : Nat) :
    ∀ e ∈ (collectRound col r).2,
      e = Event.sampleLocal r ∨
      ∃ w, w < col.numRemoteWorkers ∧ e = Event.sampleRemote r w := by
  intro e he
  unfold collectRound at he
  by_cases h : col.numRemoteWorkers ≤ 0
  · rw [if_pos h] at he
    simp at he
    exact Or.inl he
  · rw [if_neg h] at he
    simp at he
    rcases he with ⟨w, hw, rfl⟩
    exact Or.inr ⟨w, hw, rfl⟩

/-- Every event of a collect round is a sampling event or the round's
buffer add. -/
theorem collectRoundEvents_shape (col : Collaborators) (r : Nat) :
    ∀ e ∈ collectRoundEvents col r,
      e = Event.sampleLocal r ∨
      (∃ w, w < col.numRemoteWorkers ∧ e = Event.sampleRemote r w) ∨
      e = Event.bufferAdd r (collectRound col r).1 := by
  intro e he
  unfold collectRoundEvents at he
  rcases List.mem_append.mp he with h1 | h2
  · rcases collectRound_snd_shape col r e h1 with h | h
    · exact Or.inl h
    · exact Or.inr (Or.inl h)
  · simp at h2
    exact Or.inr (Or.inr h2)

/-- Every event of the collect phase is a sampling event or a buffer add. -/
theorem collectTrace_shape (col : Collaborators) :
    ∀ (k r : Nat), ∀ e ∈ collectTrace col r k,
      (∃ rr, e = Event.sampleLocal rr) ∨
      (∃ rr w, e = Event.sampleRemote rr w) ∨
      (∃ rr eps, e = Event.bufferAdd rr eps) := by
  intro k
  induction k with
  | zero => intro r e he; cases he
  | succ k ih =>
    intro r e he
    unfold collectTrace at he
    rcases List.mem_append.mp he with h1 | h2
    · rcases collectRoundEvents_shape col r e h1 with h | h | h
      · exact Or.inl ⟨r, h⟩
      · rcases h with ⟨w, _, rfl⟩
        exact Or.inr (Or.inl ⟨r, w, rfl⟩)
      · exact Or.inr (Or.inr ⟨r, _, h⟩)
    · exact ih (r + 1) e h2

/-- Collect-phase events never satisfy the training/broadcast
recognizers. -/
theorem collectTrace_flags (col : Collaborators) (k r : Nat) :
    ∀ e ∈ collectTrace col r k,
      Event.isBufferSample e = false ∧ Event.isLearnerUpdate e = false ∧
      Event.isPriorityUpdate e = false ∧ Event.isTargetUpdate e = false ∧
      e ≠ Event.syncRemoteWeights ∧ e ≠ Event.setLocalWeights := by
  intro e he
  rcases collectTrace_shape col k r e he with ⟨rr, rfl⟩ | ⟨rr, w, rfl⟩ | ⟨rr, eps, rfl⟩ <;>
    exact ⟨rfl, rfl, rfl, rfl, by simp, by simp⟩

/-- Each collect round contributes exactly one `bufferAdd` event. -/
theorem collectRoundEvents_count_bufferAdd (col : Collaborators) (r : Nat) :
    countEv (collectRoundEvents col r) Event.isBufferAdd = 1 := by
  unfold collectRoundEvents
  rw [countEv_append]
  have h0 : countEv (collectRound col r).2 Event.isBufferAdd = 0 := by
    refine countEv_zero _ _ (fun e he => ?_)
    rcases collectRound_snd_shape col r e he with rfl | ⟨w, _, rfl⟩ <;> rfl
  rw [h0]
  rfl

/-- The collect phase of `k` rounds contributes exactly `k` `bufferAdd`
events. -/
theorem collectTrace_count_bufferAdd (col : Collaborators) :
    ∀ (k r : Nat), countEv (collectTrace col r k) Event.isBufferAdd = k := by
  intro k
  induction k with
  | zero => intro r; rfl
  | succ k ih =>
    intro r
    unfold collectTrace
    rw [countEv_append, collectRoundEvents_count_bufferAdd, ih (r + 1)]
    omega

/-- Closed form of the collect-phase counter updates: both sampled counters
grow by the total collected steps; the trained counters and the
last-target-update timestep are untouched. -/
theorem collectCounters_eq (col : Collaborators) :
    ∀ (k r : Nat) (c : Counters),
      collectCounters col r k c =
        { numAgentStepsSampled := c.numAgentStepsSampled + collectedSteps col r k,
          numEnvStepsSampled := c.numEnvStepsSampled + collectedSteps col r k,
          numAgentStepsTrained := c.numAgentStepsTrained,
          numEnvStepsTrained := c.numEnvStepsTrained,
          lastTargetUpdateTs := c.lastTargetUpdateTs } := by
  intro k
  induction k with
  | zero =>
    intro r c
    cases c
    simp [collectCounters, collectedSteps]
  | succ k ih =>
    intro r c
    cases c
    simp [collectCounters, collectedSteps, ih]
    constructor <;> omega

/-- `trainRound` when the learner-side reduction fails: state unchanged,
only the buffer-sample and learner-update events happened. -/
theorem trainRound_eq_fail (cfg : SACConfig) (col : Collaborators) (r : Nat)
    (ts : TrainState) (h : reduce_fn (col.learnerRaw r) = none) :
    trainRound cfg col r ts =
      (ts,
       [Event.bufferSample r cfg.train_batch_size cfg.n_step cfg.gamma,
        Event.learnerUpdate r], false) := by
  unfold trainRound
  rw [h]

/-- `trainRound` when reduction succeeds but merging the synchronizer
results raises a `KeyError`. -/
theorem trainRound_eq_merge_fail (cfg : SACConfig) (col : Collaborators) (r : Nat)
    (ts : TrainState) (rd : ResultDict)
    (h1 : reduce_fn (col.learnerRaw r) = some rd)
    (h2 : mergeAdditional rd (col.additionalUpdate r) = none) :
    trainRound cfg col r ts =
      ({ counters := bumpTrained ts.counters (col.sampleBatch r),
         train_results := rd, modules_to_update := some (modsOf rd) },
       trainRoundEvents cfg r ts, false) := by
  unfold trainRound
  rw [h1]
  simp [h2]

/-- `trainRound` on a fully successful round. -/
theorem trainRound_eq_ok (cfg : SACConfig) (col : Collaborators) (r : Nat)
    (ts : TrainState) (rd merged : ResultDict)
    (h1 : reduce_fn (col.learnerRaw r) = some rd)
    (h2 : mergeAdditional rd (col.additionalUpdate r) = some merged) :
    trainRound cfg col r ts =
      ({ counters := bumpTrained ts.counters (col.sampleBatch r),
         train_results := merged, modules_to_update := some (modsOf rd) },
       trainRoundEvents cfg r ts, true) := by
  unfold trainRound
  rw [h1]
  simp [h2]

/-- `trainLoop` unrolled once when the first round succeeds. -/
theorem trainLoop_succ_ok (cfg : SACConfig) (col : Collaborators) (r k : Nat)
    (ts ts1 : TrainState) (evs1 : List Event)
    (h : trainRound cfg col r ts = (ts1, evs1, true)) :
    trainLoop cfg col r (k + 1) ts =
      ((trainLoop cfg col (r + 1) k ts1).1,
       evs1 ++ (trainLoop cfg col (r + 1) k ts1).2.1,
       (trainLoop cfg col (r + 1) k ts1).2.2) := by
  rw [trainLoop, h]
  simp

/-- `trainLoop` stops at a failed first round. -/
theorem trainLoop_succ_fail (cfg : SACConfig) (col : Collaborators) (r k : Nat)
    (ts ts1 : TrainState) (evs1 : List Event)
    (h : trainRound cfg col r ts = (ts1, evs1, false)) :
    trainLoop cfg col r (k + 1) ts = (ts1, evs1, false) := by
  rw [trainLoop, h]
  simp

/-- A training round never touches the sampled counters or the
last-target-update timestep, and only grows the trained counters. -/
theorem trainRound_counters (cfg : SACConfig) (col : Collaborators) (r : Nat)
    (ts : TrainState) :
    ((trainRound cfg col r ts).1.counters.numAgentStepsSampled
        = ts.counters.numAgentStepsSampled) ∧
    ((trainRound cfg col r ts).1.counters.numEnvStepsSampled
        = ts.counters.numEnvStepsSampled) ∧
    ((trainRound cfg col r ts).1.counters.lastTargetUpdateTs
        = ts.counters.lastTargetUpdateTs) ∧
    (ts.counters.numAgentStepsTrained
        ≤ (trainRound cfg col r ts).1.counters.numAgentStepsTrained) ∧
    (ts.counters.numEnvStepsTrained
        ≤ (trainRound cfg col r ts).1.counters.numEnvStepsTrained) := by
  rcases hred : reduce_fn (col.learnerRaw r) with _ | rd
  · rw [trainRound_eq_fail cfg col r ts hred]
    exact ⟨rfl, rfl, rfl, le_refl _, le_refl _⟩
  · rcases hm : mergeAdditional rd (col.additionalUpdate r) with _ | merged
    · rw [trainRound_eq_merge_fail cfg col r ts rd hred hm]
      refine ⟨rfl, rfl, rfl, ?_, ?_⟩ <;> simp [bumpTrained]
    · rw [trainRound_eq_ok cfg col r ts rd merged hred hm]
      refine ⟨rfl, rfl, rfl, ?_, ?_⟩ <;> simp [bumpTrained]

/-- Every event of a training round is one of the four training actions of
round `r`; a target update always carries the entry state's sampled-step
and last-update counters. -/
theorem trainRound_events_char (cfg : SACConfig) (col : Collaborators) (r : Nat)
    (ts : TrainState) :
    ∀ e ∈ (trainRound cfg col r ts).2.1,
      e = Event.bufferSample r cfg.train_batch_size cfg.n_step cfg.gamma ∨
      e = Event.learnerUpdate r ∨ e = Event.priorityUpdate r ∨
      e = Event.targetUpdate r ts.counters.numAgentStepsSampled
            ts.counters.lastTargetUpdateTs := by
  intro e he
  rcases hred : reduce_fn (col.learnerRaw r) with _ | rd
  · rw [trainRound_eq_fail cfg col r ts hred] at he
    simp at he
    tauto
  · rcases hm : mergeAdditional rd (col.additionalUpdate r) with _ | merged
    · rw [trainRound_eq_merge_fail cfg col r ts rd hred hm] at he
      simp [trainRoundEvents] at he
      tauto
    · rw [trainRound_eq_ok cfg col r ts rd merged hred hm] at he
      simp [trainRoundEvents] at he
      tauto

/-- A training round records exactly one learner update and one buffer
sample. -/
theorem trainRound_counts (cfg : SACConfig) (col : Collaborators) (r : Nat)
    (ts : TrainState) :
    countEv (trainRound cfg col r ts).2.1 Event.isLearnerUpdate = 1 ∧
    countEv (trainRound cfg col r ts).2.1 Event.isBufferSample = 1 := by
  rcases hred : reduce_fn (col.learnerRaw r) with _ | rd
  · rw [trainRound_eq_fail cfg col r ts hred]
    exact ⟨rfl, rfl⟩
  · rcases hm : mergeAdditional rd (col.additionalUpdate r) with _ | merged
    · rw [trainRound_eq_merge_fail cfg col r ts rd hred hm]
      exact ⟨rfl, rfl⟩
    · rw [trainRound_eq_ok cfg col r ts rd merged hred hm]
      exact ⟨rfl, rfl⟩

/-- The round's buffer-sample and learner-update events happen whether or
not the round later fails. -/
theorem trainRound_mem (cfg : SACConfig) (col : Collaborators) (r : Nat)
    (ts : TrainState) :
    Event.bufferSample r cfg.train_batch_size cfg.n_step cfg.gamma
        ∈ (trainRound cfg col r ts).2.1 ∧
    Event.learnerUpdate r ∈ (trainRound cfg col r ts).2.1 := by
  rcases hred : reduce_fn (col.learnerRaw r) with _ | rd
  · rw [trainRound_eq_fail cfg col r ts hred]
    simp
  · rcases hm : mergeAdditional rd (col.additionalUpdate r) with _ | merged
    · rw [trainRound_eq_merge_fail cfg col r ts rd hred hm]
      simp [trainRoundEvents]
    · rw [trainRound_eq_ok cfg col r ts rd merged hred hm]
      simp [trainRoundEvents]

/-- A successful training round's results are the learner's reduced
metrics merged with the synchronizer's additional results. -/
theorem trainRound_ok_results (cfg : SACConfig) (col : Collaborators) (r : Nat)
    (ts : TrainState) (h : (trainRound cfg col r ts).2.2 = true) :
    ∃ rd, reduce_fn (col.learnerRaw r) = some rd ∧
      mergeAdditional rd (col.additionalUpdate r) =
        some (trainRound cfg col r ts).1.train_results := by
  rcases hred : reduce_fn (col.learnerRaw r) with _ | rd
  · rw [trainRound_eq_fail cfg col r ts hred] at h
    cases h
  · rcases hm : mergeAdditional rd (col.additionalUpdate r) with _ | merged
    · rw [trainRound_eq_merge_fail cfg col r ts rd hred hm] at h
      cases h
    · refine ⟨rd, rfl, ?_⟩
      rw [trainRound_eq_ok cfg col r ts rd merged hred hm]
      exact hm

/-- The TRAIN phase never touches the sampled counters or the
last-target-update timestep, and only grows the trained counters. -/
theorem trainLoop_counters (cfg : SACConfig) (col : Collaborators) :
    ∀ (k r : Nat) (ts : TrainState),
      ((trainLoop cfg col r k ts).1.counters.numAgentStepsSampled
          = ts.counters.numAgentStepsSampled) ∧
      ((trainLoop cfg col r k ts).1.counters.numEnvStepsSampled
          = ts.counters.numEnvStepsSampled) ∧
      ((trainLoop cfg col r k ts).1.counters.lastTargetUpdateTs
          = ts.counters.lastTargetUpdateTs) ∧
      (ts.counters.numAgentStepsTrained
          ≤ (trainLoop cfg col r k ts).1.counters.numAgentStepsTrained) ∧
      (ts.counters.numEnvStepsTrained
          ≤ (trainLoop cfg col r k ts).1.counters.numEnvStepsTrained) := by
  intro k
  induction k with
  | zero => intro r ts; exact ⟨rfl, rfl, rfl, le_refl _, le_refl _⟩
  | succ k ih =>
    intro r ts
    have hr := trainRound_counters cfg col r ts
    rcases htr : trainRound cfg col r ts with ⟨ts1, evs1, ok1⟩
    rw [htr] at hr
    cases ok1
    · rw [trainLoop_succ_fail cfg col r k ts ts1 evs1 htr]
      exact hr
    · have hl := ih (r + 1) ts1
      rw [trainLoop_succ_ok cfg col r k ts ts1 evs1 htr]
      exact ⟨hl.1.trans hr.1, hl.2.1.trans hr.2.1, hl.2.2.1.trans hr.2.2.1,
             le_trans hr.2.2.2.1 hl.2.2.2.1, le_trans hr.2.2.2.2 hl.2.2.2.2⟩

/-- Every TRAIN-phase event is one of the four training actions; target
updates carry the phase entry state's sampled-step and last-update
counters. -/
theorem trainLoop_events_char (cfg : SACConfig) (col : Collaborators) :
    ∀ (k r : Nat) (ts : TrainState), ∀ e ∈ (trainLoop cfg col r k ts).2.1,
      ∃ rr, e = Event.bufferSample rr cfg.train_batch_size cfg.n_step cfg.gamma ∨
            e = Event.learnerUpdate rr ∨ e = Event.priorityUpdate rr ∨
            e = Event.targetUpdate rr ts.counters.numAgentStepsSampled
                  ts.counters.lastTargetUpdateTs := by
  intro k
  induction k with
  | zero => intro r ts e he; cases he
  | succ k ih =>
    intro r ts e he
    have hchar := trainRound_events_char cfg col r ts
    have hcnt := trainRound_counters cfg col r ts
    rcases htr : trainRound cfg col r ts with ⟨ts1, evs1, ok1⟩
    rw [htr] at hchar hcnt
    cases ok1
    · rw [trainLoop_succ_fail cfg col r k ts ts1 evs1 htr] at he
      exact ⟨r, hchar e he⟩
    · rw [trainLoop_succ_ok cfg col r k ts ts1 evs1 htr] at he
      rcases List.mem_append.mp he with h1 | h2
      · exact ⟨r, hchar e h1⟩
      · rcases ih (r + 1) ts1 e h2 with ⟨rr, h⟩
        have hs : ts1.counters.numAgentStepsSampled
            = ts.counters.numAgentStepsSampled := hcnt.1
        have hl : ts1.counters.lastTargetUpdateTs
            = ts.counters.lastTargetUpdateTs := hcnt.2.2.1
        rw [hs, hl] at h
        exact ⟨rr, h⟩

/-- A fully successful TRAIN phase of `k` rounds records exactly `k`
learner updates and `k` buffer samples. -/
theorem trainLoop_counts_ok (cfg : SACConfig) (col : Collaborators) :
    ∀ (k r : Nat) (ts : TrainState),
      (trainLoop cfg col r k ts).2.2 = true →
      countEv (trainLoop cfg col r k ts).2.1 Event.isLearnerUpdate = k ∧
      countEv (trainLoop cfg col r k ts).2.1 Event.isBufferSample = k := by
  intro k
  induction k with
  | zero => intro r ts _; exact ⟨rfl, rfl⟩
  | succ k ih =>
    intro r ts hok
    have hcnt := trainRound_counts cfg col r ts
    rcases htr : trainRound cfg col r ts with ⟨ts1, evs1, ok1⟩
    rw [htr] at hcnt
    cases ok1
    · rw [trainLoop_succ_fail cfg col r k ts ts1 evs1 htr] at hok
      cases hok
    · rw [trainLoop_succ_ok cfg col r k ts ts1 evs1 htr] at hok ⊢
      have hok' : (trainLoop cfg col (r + 1) k ts1).2.2 = true := hok
      have hih := ih (r + 1) ts1 hok'
      have h1 : countEv (evs1 ++ (trainLoop cfg col (r + 1) k ts1).2.1)
          Event.isLearnerUpdate = k + 1 := by
        rw [countEv_append]
        have : countEv evs1 Event.isLearnerUpdate = 1 := hcnt.1
        omega
      have h2 : countEv (evs1 ++ (trainLoop cfg col (r + 1) k ts1).2.1)
          Event.isBufferSample = k + 1 := by
        rw [countEv_append]
        have : countEv evs1 Event.isBufferSample = 1 := hcnt.2
        omega
      exact ⟨h1, h2⟩

/-- If at least one training round runs, round 0's buffer-sample and
learner-update events are in the TRAIN-phase trace. -/
theorem trainLoop_mem_first (cfg : SACConfig) (col : Collaborators) :
    ∀ (k r : Nat) (ts : TrainState), 1 ≤ k →
      Event.bufferSample r cfg.train_batch_size cfg.n_step cfg.gamma
          ∈ (trainLoop cfg col r k ts).2.1 ∧
      Event.learnerUpdate r ∈ (trainLoop cfg col r k ts).2.1 := by
  intro k
  cases k with
  | zero => intro r ts h; omega
  | succ k =>
    intro r ts _
    have hm := trainRound_mem cfg col r ts
    rcases htr : trainRound cfg col r ts with ⟨ts1, evs1, ok1⟩
    rw [htr] at hm
    cases ok1
    · rw [trainLoop_succ_fail cfg col r k ts ts1 evs1 htr]
      exact hm
    · rw [trainLoop_succ_ok cfg col r k ts ts1 evs1 htr]
      exact ⟨List.mem_append_left _ hm.1, List.mem_append_left _ hm.2⟩

/-- The results of a fully successful nonempty TRAIN phase are the last
round's reduced learner metrics merged with its synchronizer results. -/
theorem trainLoop_results_ok (cfg : SACConfig) (col : Collaborators) :
    ∀ (k r : Nat) (ts : TrainState),
      (trainLoop cfg col r (k + 1) ts).2.2 = true →
      ∃ rd, reduce_fn (col.learnerRaw (r + k)) = some rd ∧
        mergeAdditional rd (col.additionalUpdate (r + k)) =
          some (trainLoop cfg col r (k + 1) ts).1.train_results := by
  intro k
  induction k with
  | zero =>
    intro r ts hok
    rcases htr : trainRound cfg col r ts with ⟨ts1, evs1, ok1⟩
    cases ok1
    · rw [trainLoop_succ_fail cfg col r 0 ts ts1 evs1 htr] at hok
      cases hok
    · have h := trainRound_ok_results cfg col r ts (by rw [htr])
      rw [htr] at h
      rw [trainLoop_succ_ok cfg col r 0 ts ts1 evs1 htr]
      simpa using h
  | succ k ih =>
    intro r ts hok
    rcases htr : trainRound cfg col r ts with ⟨ts1, evs1, ok1⟩
    cases ok1
    · rw [trainLoop_succ_fail cfg col r (k + 1) ts ts1 evs1 htr] at hok
      cases hok
    · rw [trainLoop_succ_ok cfg col r (k + 1) ts ts1 evs1 htr] at hok ⊢
      have hok' : (trainLoop cfg col (r + 1) (k + 1) ts1).2.2 = true := hok
      have h := ih (r + 1) ts1 hok'
      rw [show r + (k + 1) = r + 1 + k from by omega]
      exact h

/-- `training_step` when the warm-up gate blocks: empty metrics, collect
trace only, post-collect counters. -/
theorem training_step_of_lt (cfg : SACConfig) (col : Collaborators) (c0 : Counters)
    (h : currentTsAfterCollect cfg col c0
          < cfg.num_steps_sampled_before_learning_starts) :
    SAC.training_step cfg col c0 =
      { counters := countersAfterCollect cfg col c0, results := some [],
        trace := ctraceOf cfg col } := by
  unfold SAC.training_step
  rw [if_neg (by omega)]

/-- `training_step` when the gate passes but a training round raised. -/
theorem training_step_ge_fail (cfg : SACConfig) (col : Collaborators) (c0 : Counters)
    (h : cfg.num_steps_sampled_before_learning_starts
          ≤ currentTsAfterCollect cfg col c0)
    (hok : (theLoop cfg col c0).2.2 = false) :
    SAC.training_step cfg col c0 =
      { counters := (theLoop cfg col c0).1.counters, results := none,
        trace := ctraceOf cfg col ++ (theLoop cfg col c0).2.1 } := by
  unfold SAC.training_step
  rw [if_pos h]
  simp [hok]

/-- `training_step` in a local-only configuration after a successful TRAIN
phase: metrics returned, learner weights set on the local worker. -/
theorem training_step_ge_ok_local (cfg : SACConfig) (col : Collaborators)
    (c0 : Counters)
    (h : cfg.num_steps_sampled_before_learning_starts
          ≤ currentTsAfterCollect cfg col c0)
    (hok : (theLoop cfg col c0).2.2 = true)
    (hrem : col.numRemoteWorkers = 0) :
    SAC.training_step cfg col c0 =
      { counters := (theLoop cfg col c0).1.counters,
        results := some (theLoop cfg col c0).1.train_results,
        trace := ctraceOf cfg col ++ (theLoop cfg col c0).2.1 ++
          [Event.setLocalWeights] } := by
  unfold SAC.training_step
  rw [if_pos h]
  simp [hok, hrem]

/-- `training_step` with remote workers after a successful TRAIN phase:
metrics returned, weights synced to the remote workers. -/
theorem training_step_ge_ok_remote (cfg : SACConfig) (col : Collaborators)
    (c0 : Counters) (ms : List String)
    (h : cfg.num_steps_sampled_before_learning_starts
          ≤ currentTsAfterCollect cfg col c0)
    (hok : (theLoop cfg col c0).2.2 = true)
    (hrem : 0 < col.numRemoteWorkers)
    (hmods : (theLoop cfg col c0).1.modules_to_update = some ms) :
    SAC.training_step cfg col c0 =
      { counters := (theLoop cfg col c0).1.counters,
        results := some (theLoop cfg col c0).1.train_results,
        trace := ctraceOf cfg col ++ (theLoop cfg col c0).2.1 ++
          [Event.syncRemoteWeights] } := by
  unfold SAC.training_step
  rw [if_pos h]
  simp [hok, hrem, hmods]

/-- `training_step` with remote workers, a successful TRAIN phase but no
train round ever executed: the broadcast's `modules_to_update` reference
raises `NameError`. -/
theorem training_step_ge_ok_remote_unbound (cfg : SACConfig) (col : Collaborators)
    (c0 : Counters)
    (h : cfg.num_steps_sampled_before_learning_starts
          ≤ currentTsAfterCollect cfg col c0)
    (hok : (theLoop cfg col c0).2.2 = true)
    (hrem : 0 < col.numRemoteWorkers)
    (hmods : (theLoop cfg col c0).1.modules_to_update = none) :
    SAC.training_step cfg col c0 =
      { counters := (theLoop cfg col c0).1.counters, results := none,
        trace := ctraceOf cfg col ++ (theLoop cfg col c0).2.1 } := by
  unfold SAC.training_step
  rw [if_pos h]
  simp [hok, hrem, hmods]

/-- `mapO` with a key-preserving function preserves the key list. -/
theorem mapO_fst {α β : Type} (f : (String × α) → Option (String × β)) :
    ∀ (l : List (String × α)) (l' : List (String × β)),
      (∀ kv v, f kv = some v → v.1 = kv.1) →
      mapO f l = some l' →
      l'.map (fun kv => kv.1) = l.map (fun kv => kv.1) := by
  intro l
  induction l with
  | nil =>
    intro l' _ h
    unfold mapO at h
    cases h
    rfl
  | cons a t ih =>
    intro l' hf h
    unfold mapO at h
    cases hfa : f a with
    | none =>
      rw [hfa] at h
      simp at h
    | some b =>
      rw [hfa] at h
      cases ht : mapO f t with
      | none =>
        rw [ht] at h
        simp at h
      | some t' =>
        rw [ht] at h
        simp at h
        subst h
        simp [hf a b hfa, ih t' hf ht]

/-- Unfolding equation of `reduceAll` on a nonempty result list. -/
theorem reduceAll_cons (r0 : ResultDict) (rest : List ResultDict) :
    reduceAll (r0 :: rest) =
      if rest.all (fun r => r.length == r0.length) then
        mapO (fun kv =>
          match mapO (fun r => lookupA r kv.1) (r0 :: rest) with
          | some ms =>
            match reduceModule ms with
            | some m => some (kv.1, m)
            | none => none
          | none => none) r0
      else none := rfl

/-- The reduced results are keyed exactly like the first learner result. -/
theorem reduceAll_fst (r0 : ResultDict) (rest : List ResultDict) (red : ResultDict)
    (h : reduceAll (r0 :: rest) = some red) :
    red.map (fun kv => kv.1) = r0.map (fun kv => kv.1) := by
  rw [reduceAll_cons] at h
  by_cases hlen : rest.all (fun r => r.length == r0.length)
  · rw [if_pos hlen] at h
    refine mapO_fst _ r0 red ?_ h
    intro kv v hv
    split at hv
    · split at hv
      · cases hv
        rfl
      · exact Option.noConfusion hv
    · exact Option.noConfusion hv
  · rw [if_neg hlen] at h
    cases h

/-- The first component of each entry of the final comprehension of
`reduce_fn` is the entry's original key. -/
theorem zipTd_fst_elem (x : String × ModuleDict) (a : MVal) :
    (if x.1 == "__all__" then x
     else (x.1, dictUpdate x.2 [("td_error", a)])).1 = x.1 := by
  cases hx : x.1 == "__all__" <;> simp [hx]

/-- Zipping against the td-error list keeps the first
`min (length, 2)`-many keys, in order. -/
theorem zip_map_fst_take :
    ∀ (red : ResultDict) (l2 : List MVal),
      ((red.zip l2).map
          (fun p =>
            if p.1.1 == "__all__" then p.1
            else (p.1.1, dictUpdate p.1.2 [("td_error", p.2)]))).map (fun kv => kv.1)
        = (red.map (fun kv => kv.1)).take l2.length := by
  intro red
  induction red with
  | nil => intro l2; simp
  | cons x t ih =>
    intro l2
    cases l2 with
    | nil => simp
    | cons a l2t =>
      simp only [List.zip_cons_cons, List.map_cons, List.length_cons,
        List.take_succ_cons]
      exact congrArg₂ List.cons (zipTd_fst_elem x a) (ih l2t)

/-- A successful `reduce_fn` returns a dict keyed by the first (at most)
two keys of the first learner result, in order. -/
theorem reduce_fn_keys (results : List ResultDict) (rd : ResultDict)
    (h : reduce_fn results = some rd) :
    ∃ r0 rest, results = r0 :: rest ∧
      rd.map (fun kv => kv.1) = (r0.map (fun kv => kv.1)).take 2 := by
  unfold reduce_fn at h
  split at h
  next m =>
    split at h
    next td htd =>
      split at h
      next red hra =>
        cases h
        cases results with
        | nil => simp [reduceAll] at hra
        | cons r0 rest =>
          refine ⟨r0, rest, rfl, ?_⟩
          rw [zip_map_fst_take red [MVal.vnone, td]]
          rw [reduceAll_fst r0 rest red hra]
          rfl
      next hra => exact Option.noConfusion h
    next htd => exact Option.noConfusion h
  next heq2 => exact Option.noConfusion h

/-- Updating values in place never changes the key list. -/
theorem map_upd_fst {α : Type} (tr : List (String × α)) (p : String)
    (f : (String × α) → α) :
    (tr.map (fun kv => if kv.1 == p then (kv.1, f kv) else kv)).map
        (fun kv => kv.1)
      = tr.map (fun kv => kv.1) := by
  induction tr with
  | nil => rfl
  | cons x t ih =>
    simp only [List.map_cons, List.map_map]
    cases hx : x.1 == p <;> simp_all

/-- Merging the synchronizer's additional results preserves the key list
of the training results. -/
theorem mergeAdditional_fst :
    ∀ (add tr tr' : ResultDict), mergeAdditional tr add = some tr' →
      tr'.map (fun kv => kv.1) = tr.map (fun kv => kv.1) := by
  intro add
  induction add with
  | nil =>
    intro tr tr' h
    unfold mergeAdditional at h
    cases h
    rfl
  | cons p rest ih =>
    intro tr tr' h
    unfold mergeAdditional at h
    by_cases hany : tr.any (fun kv => kv.1 == p.1)
    · rw [if_pos hany] at h
      have hk := ih _ tr' h
      rw [hk]
      exact map_upd_fst tr p.1 (fun kv => dictUpdate kv.2 p.2)
    · rw [if_neg hany] at h
      cases h

/-- An error of the external numeric validation is one of the four numeric
error codes. -/
theorem externalConfigValidate_errors (c : SACConfig) (e : ConfigError)
    (h : externalConfigValidate c = Except.error e) :
    e = ConfigError.invalidCapacity ∨ e = ConfigError.invalidAlpha ∨
    e = ConfigError.invalidTau ∨ e = ConfigError.invalidNStep := by
  unfold externalConfigValidate at h
  split at h
  · cases h; tauto
  · split at h
    · cases h; tauto
    · split at h
      · cases h; tauto
      · split at h
        · cases h; tauto
        · exact Except.noConfusion h

/-- `validate` propagates an error of `super().validate()`. -/
theorem validate_ext_error (c : SACConfig) (e : ConfigError)
    (h : externalConfigValidate c = Except.error e) :
    SACConfig.validate c = Except.error e := by
  unfold SACConfig.validate
  rw [h]

/-- `validate` after a passing `super().validate()` is the SAC-specific
check chain. -/
theorem validate_ext_ok (c : SACConfig)
    (h : externalConfigValidate c = Except.ok ()) :
    SACConfig.validate c =
      (if c.rolloutFragmentTooSmallB then
        Except.error ConfigError.rolloutFragmentTooSmall
      else if (match c.grad_clip with
               | some g => decide (g ≤ 0)
               | none => false) then Except.error ConfigError.gradClipNonPositive
      else if c.uses_new_env_runners &&
          !(c.replay_buffer_type == "EpisodeReplayBuffer" ||
            c.replay_buffer_type == "PrioritizedEpisodeReplayBuffer") then
        Except.error ConfigError.wrongBufferType
      else Except.ok ()) := by
  unfold SACConfig.validate
  rw [h]

/-- Claim C7: construction/validation of the configuration raises an
invalid-configuration error for malformed numeric parameters - negative
capacity, alpha < 0, tau outside (0,1], or n_step < 1 - and never silently
clamps such values: validation returns one of the four numeric error codes
(and hence never `ok`); it has no channel to write back modified values. -/
theorem C7_invalid_numeric_config (c : SACConfig)
    (h : c.capacity < 0 ∨ c.prioritized_replay_alpha < 0 ∨
         c.tau ≤ 0 ∨ 1 < c.tau ∨ c.n_step < 1) :
    ∃ e, SACConfig.validate c = Except.error e ∧
      (e = ConfigError.invalidCapacity ∨ e = ConfigError.invalidAlpha ∨
       e = ConfigError.invalidTau ∨ e = ConfigError.invalidNStep) := by
  have hext : ∃ e, externalConfigValidate c = Except.error e := by
    unfold externalConfigValidate
    by_cases h1 : c.capacity < 0
    · rw [if_pos h1]; exact ⟨_, rfl⟩
    · rw [if_neg h1]
      by_cases h2 : c.prioritized_replay_alpha < 0
      · rw [if_pos h2]; exact ⟨_, rfl⟩
      · rw [if_neg h2]
        by_cases h3 : c.tau ≤ 0 ∨ 1 < c.tau
        · rw [if_pos h3]; exact ⟨_, rfl⟩
        · rw [if_neg h3]
          have h4 : c.n_step < 1 := by tauto
          rw [if_pos h4]; exact ⟨_, rfl⟩
  rcases hext with ⟨e, he⟩
  exact ⟨e, validate_ext_error c e he, externalConfigValidate_errors c e he⟩

/-- Witness for C7 at the concrete configuration with capacity -1. -/
theorem C7_invalid_numeric_config_witness :
    ∃ e, SACConfig.validate cfgBadCapacity = Except.error e ∧
      (e = ConfigError.invalidCapacity ∨ e = ConfigError.invalidAlpha ∨
       e = ConfigError.invalidTau ∨ e = ConfigError.invalidNStep) :=
  C7_invalid_numeric_config cfgBadCapacity (Or.inl (by decide))

/-- Claim C9: validation rejects (raises an error for) any non-evaluation
configuration whose `rollout_fragment_length` is an explicit number smaller
than `n_step`; `rollout_fragment_length = "auto"` never triggers that
rejection and resolves to `n_step`. -/
theorem C9_rollout_fragment_check (c : SACConfig) :
    (∀ n : Int, c.in_evaluation = false →
       c.rollout_fragment_length = RolloutFragment.value n → n < c.n_step →
       ∃ e, SACConfig.validate c = Except.error e) ∧
    (c.rollout_fragment_length = RolloutFragment.auto →
       SACConfig.validate c ≠ Except.error ConfigError.rolloutFragmentTooSmall ∧
       SACConfig.get_rollout_fragment_length c = c.n_step) := by
  constructor
  · intro n heval hrfl hlt
    cases hext : externalConfigValidate c with
    | error e => exact ⟨e, validate_ext_error c e hext⟩
    | ok u =>
      cases u
      refine ⟨ConfigError.rolloutFragmentTooSmall, ?_⟩
      rw [validate_ext_ok c hext]
      have hb : c.rolloutFragmentTooSmallB = true := by
        unfold SACConfig.rolloutFragmentTooSmallB
        rw [heval, hrfl]
        simp [hlt]
      rw [if_pos hb]
  · intro hauto
    constructor
    · have hb : c.rolloutFragmentTooSmallB = false := by
        unfold SACConfig.rolloutFragmentTooSmallB
        rw [hauto]
        simp
      cases hext : externalConfigValidate c with
      | error e =>
        rw [validate_ext_error c e hext]
        intro hc
        have he := externalConfigValidate_errors c e hext
        cases hc
        simp at he
      | ok u =>
        cases u
        rw [validate_ext_ok c hext]
        rw [if_neg (by simp [hb])]
        intro hc
        split at hc
        · simp at hc
        · split at hc
          · simp at hc
          · simp at hc
    · unfold SACConfig.get_rollout_fragment_length
      rw [hauto]

/-- Witness for C9: the small-fragment configuration is rejected; the
"auto" configuration passes the fragment check and resolves to
`n_step`. -/
theorem C9_rollout_fragment_check_witness :
    (∃ e, SACConfig.validate cfgSmallFragment = Except.error e) ∧
    (SACConfig.validate cfgA ≠ Except.error ConfigError.rolloutFragmentTooSmall ∧
     SACConfig.get_rollout_fragment_length cfgA = cfgA.n_step) :=
  ⟨(C9_rollout_fragment_check cfgSmallFragment).1 0 (by decide) rfl (by decide),
   (C9_rollout_fragment_check cfgA).2 rfl⟩

/-- Claim C1: if the cumulative sampled step counter (per `count_steps_by`)
after the COLLECT phase is strictly below
`num_steps_sampled_before_learning_starts`, `training_step` performs no
training at all - no buffer sample, no learner update, no priority refresh
- and returns the empty metrics dict; once the counter reaches the
threshold (and at least one train round is scheduled), training proceeds:
the buffer is sampled and the learner updated. -/
theorem C1_warmup_gate (cfg : SACConfig) (col : Collaborators) (c0 : Counters) :
    (currentTsAfterCollect cfg col c0
        < cfg.num_steps_sampled_before_learning_starts →
      (SAC.training_step cfg col c0).results = some [] ∧
      countEv (SAC.training_step cfg col c0).trace Event.isBufferSample = 0 ∧
      countEv (SAC.training_step cfg col c0).trace Event.isLearnerUpdate = 0 ∧
      countEv (SAC.training_step cfg col c0).trace Event.isPriorityUpdate = 0) ∧
    (cfg.num_steps_sampled_before_learning_starts
        ≤ currentTsAfterCollect cfg col c0 →
      1 ≤ (calculate_rr_weights cfg).2 →
      Event.bufferSample 0 cfg.train_batch_size cfg.n_step cfg.gamma
          ∈ (SAC.training_step cfg col c0).trace ∧
      Event.learnerUpdate 0 ∈ (SAC.training_step cfg col c0).trace) := by
  constructor
  · intro h
    rw [training_step_of_lt cfg col c0 h]
    exact ⟨rfl,
      countEv_zero _ _ (fun e he => (collectTrace_flags col _ 0 e he).1),
      countEv_zero _ _ (fun e he => (collectTrace_flags col _ 0 e he).2.1),
      countEv_zero _ _ (fun e he => (collectTrace_flags col _ 0 e he).2.2.1)⟩
  · intro hge htw
    have hmem : Event.bufferSample 0 cfg.train_batch_size cfg.n_step cfg.gamma
          ∈ (theLoop cfg col c0).2.1 ∧
        Event.learnerUpdate 0 ∈ (theLoop cfg col c0).2.1 :=
      trainLoop_mem_first cfg col (calculate_rr_weights cfg).2 0
        (initTrainState cfg col c0) htw
    cases hok : (theLoop cfg col c0).2.2 with
    | false =>
      rw [training_step_ge_fail cfg col c0 hge hok]
      exact ⟨List.mem_append_right _ hmem.1, List.mem_append_right _ hmem.2⟩
    | true =>
      by_cases hrem : 0 < col.numRemoteWorkers
      · cases hmods : (theLoop cfg col c0).1.modules_to_update with
        | none =>
          rw [training_step_ge_ok_remote_unbound cfg col c0 hge hok hrem hmods]
          exact ⟨List.mem_append_right _ hmem.1, List.mem_append_right _ hmem.2⟩
        | some ms =>
          rw [training_step_ge_ok_remote cfg col c0 ms hge hok hrem hmods]
          exact ⟨List.mem_append_left _ (List.mem_append_right _ hmem.1),
                 List.mem_append_left _ (List.mem_append_right _ hmem.2)⟩
      · have hrem0 : col.numRemoteWorkers = 0 := by omega
        rw [training_step_ge_ok_local cfg col c0 hge hok hrem0]
        exact ⟨List.mem_append_left _ (List.mem_append_right _ hmem.1),
               List.mem_append_left _ (List.mem_append_right _ hmem.2)⟩

/-- Witness for C1: the spec scenario (threshold 100, 50 steps collected)
reports empty no-op metrics; with threshold 0 training proceeds. -/
theorem C1_warmup_gate_witness :
    ((SAC.training_step cfgW colW counters0).results = some [] ∧
     countEv (SAC.training_step cfgW colW counters0).trace
         Event.isBufferSample = 0 ∧
     countEv (SAC.training_step cfgW colW counters0).trace
         Event.isLearnerUpdate = 0 ∧
     countEv (SAC.training_step cfgW colW counters0).trace
         Event.isPriorityUpdate = 0) ∧
    (Event.bufferSample 0 cfgA.train_batch_size cfgA.n_step cfgA.gamma
        ∈ (SAC.training_step cfgA colA counters0).trace ∧
     Event.learnerUpdate 0 ∈ (SAC.training_step cfgA colA counters0).trace) :=
  ⟨(C1_warmup_gate cfgW colW counters0).1 (by decide),
   (C1_warmup_gate cfgA colA counters0).2 (by decide) (by decide)⟩

/-- Counterexample to claim C2: in a concrete run the synchronizer is
invoked with `timestep = 5`, the cumulative SAMPLED agent steps, while the
cumulative trained steps are 2 - the timestep compared against
`last_update_timestep` is not the trained-step counter. -/
theorem C2_target_timestep_counterexample :
    Event.targetUpdate 0 5 0 ∈ (SAC.training_step cfgA colA counters0).trace ∧
    (∀ e ∈ (SAC.training_step cfgA colA counters0).trace,
      Event.isTargetUpdate e = true → e = Event.targetUpdate 0 5 0) ∧
    (SAC.training_step cfgA colA counters0).counters.numAgentStepsTrained = 2 ∧
    (SAC.training_step cfgA colA counters0).counters.numEnvStepsTrained = 2 ∧
    (5 : Nat) ≠ 2 := by
  decide

/-- Claim C2 (amended): the current timestep `training_step` passes to the
target-network synchronizer (`additional_update`, compared there against
`last_update_timestep`) is the cumulative number of SAMPLED agent steps
(NUM_AGENT_STEPS_SAMPLED as of the end of the COLLECT phase, regardless of
`count_steps_by`), and the last-update value passed is the
LAST_TARGET_UPDATE_TS counter from before the call. -/
theorem C2_target_timestep (cfg : SACConfig) (col : Collaborators)
    (c0 : Counters) (r t lu : Nat)
    (h : Event.targetUpdate r t lu ∈ (SAC.training_step cfg col c0).trace) :
    t = (countersAfterCollect cfg col c0).numAgentStepsSampled ∧
    lu = c0.lastTargetUpdateTs := by
  have hlast : (countersAfterCollect cfg col c0).lastTargetUpdateTs
      = c0.lastTargetUpdateTs := by
    unfold countersAfterCollect
    rw [collectCounters_eq col]
  have hct : Event.targetUpdate r t lu ∉ ctraceOf cfg col := by
    intro hc
    have hfl := (collectTrace_flags col _ 0 _ hc).2.2.2.1
    simp [Event.isTargetUpdate] at hfl
  have htevs : Event.targetUpdate r t lu ∈ (theLoop cfg col c0).2.1 →
      t = (countersAfterCollect cfg col c0).numAgentStepsSampled ∧
      lu = c0.lastTargetUpdateTs := by
    intro hm
    rcases trainLoop_events_char cfg col (calculate_rr_weights cfg).2 0
        (initTrainState cfg col c0) _ hm with ⟨rr, h1 | h1 | h1 | h1⟩
    · exact absurd h1 (by simp)
    · exact absurd h1 (by simp)
    · exact absurd h1 (by simp)
    · injection h1 with h1r h1t h1lu
      constructor
      · exact h1t
      · rw [h1lu]
        exact hlast
  by_cases hgate : cfg.num_steps_sampled_before_learning_starts
      ≤ currentTsAfterCollect cfg col c0
  · cases hok : (theLoop cfg col c0).2.2 with
    | false =>
      rw [training_step_ge_fail cfg col c0 hgate hok] at h
      rcases List.mem_append.mp h with hc | hm
      · exact absurd hc hct
      · exact htevs hm
    | true =>
      by_cases hrem : 0 < col.numRemoteWorkers
      · cases hmods : (theLoop cfg col c0).1.modules_to_update with
        | none =>
          rw [training_step_ge_ok_remote_unbound cfg col c0 hgate hok hrem hmods] at h
          rcases List.mem_append.mp h with hc | hm
          · exact absurd hc hct
          · exact htevs hm
        | some ms =>
          rw [training_step_ge_ok_remote cfg col c0 ms hgate hok hrem hmods] at h
          rcases List.mem_append.mp h with h2 | h3
          · rcases List.mem_append.mp h2 with hc | hm
            · exact absurd hc hct
            · exact htevs hm
          · simp at h3
      · have hrem0 : col.numRemoteWorkers = 0 := by omega
        rw [training_step_ge_ok_local cfg col c0 hgate hok hrem0] at h
        rcases List.mem_append.mp h with h2 | h3
        · rcases List.mem_append.mp h2 with hc | hm
          · exact absurd hc hct
          · exact htevs hm
        · simp at h3
  · rw [training_step_of_lt cfg col c0 (by omega)] at h
    exact absurd h hct

/-- Witness for the amended C2 at the concrete run: the timestep 5 passed
to the synchronizer equals the post-collect sampled-step counter. -/
theorem C2_target_timestep_witness :
    (5 : Nat) = (countersAfterCollect cfgA colA counters0).numAgentStepsSampled ∧
    (0 : Nat) = counters0.lastTargetUpdateTs :=
  C2_target_timestep cfgA colA counters0 0 5 0 (by decide)

/-- Counterexample to claim C3: in a warm-up iteration (threshold 100,
only 50 steps collected) `training_step` returns the empty metrics dict,
which contains no aggregate "__all__" key (and no per-module key). -/
theorem C3_aggregate_counterexample :
    (SAC.training_step cfgW colW counters0).results = some [] ∧
    ¬ ("__all__" ∈ (([] : ResultDict).map (fun kv => kv.1))) := by
  exact ⟨by decide, by simp⟩

/-- Claim C3 (amended): for every training iteration in which training
actually runs (warm-up gate passed, at least one train round scheduled,
no collaborator exception), the returned metrics dict is the last train
round's reduced learner metrics merged with that round's synchronizer
metrics; its keys are the first (at most) two keys of the learner's raw
result, so it contains the aggregate "__all__" key alongside the
per-module key whenever the learner's raw results report the aggregate
among those keys.  During warm-up the returned dict is empty. -/
theorem C3_report_metrics (cfg : SACConfig) (col : Collaborators) (c0 : Counters)
    (rd : ResultDict)
    (hgate : cfg.num_steps_sampled_before_learning_starts
        ≤ currentTsAfterCollect cfg col c0)
    (htw : 1 ≤ (calculate_rr_weights cfg).2)
    (hres : (SAC.training_step cfg col c0).results = some rd) :
    ∃ rdLast r0 rest,
      reduce_fn (col.learnerRaw ((calculate_rr_weights cfg).2 - 1)) = some rdLast ∧
      mergeAdditional rdLast
          (col.additionalUpdate ((calculate_rr_weights cfg).2 - 1)) = some rd ∧
      col.learnerRaw ((calculate_rr_weights cfg).2 - 1) = r0 :: rest ∧
      rd.map (fun kv => kv.1) = (r0.map (fun kv => kv.1)).take 2 ∧
      ("__all__" ∈ (r0.map (fun kv => kv.1)).take 2 →
        "__all__" ∈ rd.map (fun kv => kv.1)) := by
  cases hok : (theLoop cfg col c0).2.2 with
  | false =>
    rw [training_step_ge_fail cfg col c0 hgate hok] at hres
    exact Option.noConfusion hres
  | true =>
    have hrd : some (theLoop cfg col c0).1.train_results = some rd := by
      by_cases hrem : 0 < col.numRemoteWorkers
      · cases hmods : (theLoop cfg col c0).1.modules_to_update with
        | none =>
          rw [training_step_ge_ok_remote_unbound cfg col c0 hgate hok hrem hmods]
            at hres
          exact Option.noConfusion hres
        | some ms =>
          rw [training_step_ge_ok_remote cfg col c0 ms hgate hok hrem hmods] at hres
          exact hres
      · have hrem0 : col.numRemoteWorkers = 0 := by omega
        rw [training_step_ge_ok_local cfg col c0 hgate hok hrem0] at hres
        exact hres
    have hrd' : (theLoop cfg col c0).1.train_results = rd := Option.some.inj hrd
    obtain ⟨k, hk⟩ : ∃ k, (calculate_rr_weights cfg).2 = k + 1 :=
      ⟨(calculate_rr_weights cfg).2 - 1, by omega⟩
    have hok2 : (trainLoop cfg col 0 (k + 1) (initTrainState cfg col c0)).2.2
        = true := by
      rw [← hk]
      exact hok
    have hres2 := trainLoop_results_ok cfg col k 0 (initTrainState cfg col c0) hok2
    simp only [Nat.zero_add] at hres2
    rcases hres2 with ⟨rdL, hred, hmerge⟩
    have htr : (trainLoop cfg col 0 (k + 1)
        (initTrainState cfg col c0)).1.train_results = rd := by
      rw [← hk]
      exact hrd'
    rw [htr] at hmerge
    rcases reduce_fn_keys _ rdL hred with ⟨r0, rest, hr0, hkeys⟩
    have hmk : rd.map (fun kv => kv.1) = rdL.map (fun kv => kv.1) :=
      mergeAdditional_fst (col.additionalUpdate k) rdL rd hmerge
    rw [hk, Nat.add_sub_cancel]
    refine ⟨rdL, r0, rest, hred, hmerge, hr0, ?_, ?_⟩
    · rw [hmk, hkeys]
    · intro hmem
      rw [hmk, hkeys]
      exact hmem

/-- Witness for the amended C3 at the concrete run: the returned metrics
are the merged dict `resultA`, keyed by the learner result's aggregate and
module keys. -/
theorem C3_report_metrics_witness :
    ∃ rdLast r0 rest,
      reduce_fn (colA.learnerRaw ((calculate_rr_weights cfgA).2 - 1))
          = some rdLast ∧
      mergeAdditional rdLast
          (colA.additionalUpdate ((calculate_rr_weights cfgA).2 - 1))
          = some resultA ∧
      colA.learnerRaw ((calculate_rr_weights cfgA).2 - 1) = r0 :: rest ∧
      resultA.map (fun kv => kv.1) = (r0.map (fun kv => kv.1)).take 2 ∧
      ("__all__" ∈ (r0.map (fun kv => kv.1)).take 2 →
        "__all__" ∈ resultA.map (fun kv => kv.1)) :=
  C3_report_metrics cfgA colA counters0 resultA (by decide) (by decide) rfl

/-- TRAIN-phase events are never buffer adds or broadcast events. -/
theorem theLoop_events_flags (cfg : SACConfig) (col : Collaborators) (c0 : Counters) :
    ∀ e ∈ (theLoop cfg col c0).2.1,
      Event.isBufferAdd e = false ∧
      e ≠ Event.syncRemoteWeights ∧ e ≠ Event.setLocalWeights := by
  intro e he
  rcases trainLoop_events_char cfg col (calculate_rr_weights cfg).2 0
      (initTrainState cfg col c0) _ he with ⟨rr, h | h | h | h⟩ <;>
    subst h <;> exact ⟨rfl, by simp, by simp⟩

/-- Claim C4: after the TRAIN phase of a completed training iteration, when
remote collectors exist the updated weights are pushed to the remote
samplers as the final action (and the local-worker path is not taken); in
a local-only configuration the remote broadcast is skipped and instead the
single local collector receives the learner's weights as the final
action. -/
theorem C4_weight_broadcast (cfg : SACConfig) (col : Collaborators) (c0 : Counters)
    (rd : ResultDict)
    (hgate : cfg.num_steps_sampled_before_learning_starts
        ≤ currentTsAfterCollect cfg col c0)
    (hres : (SAC.training_step cfg col c0).results = some rd) :
    (0 < col.numRemoteWorkers →
      (∃ pre, (SAC.training_step cfg col c0).trace
          = pre ++ [Event.syncRemoteWeights]) ∧
      Event.setLocalWeights ∉ (SAC.training_step cfg col c0).trace) ∧
    (col.numRemoteWorkers = 0 →
      (∃ pre, (SAC.training_step cfg col c0).trace
          = pre ++ [Event.setLocalWeights]) ∧
      Event.syncRemoteWeights ∉ (SAC.training_step cfg col c0).trace) := by
  cases hok : (theLoop cfg col c0).2.2 with
  | false =>
    rw [training_step_ge_fail cfg col c0 hgate hok] at hres
    exact Option.noConfusion hres
  | true =>
    constructor
    · intro hrem
      cases hmods : (theLoop cfg col c0).1.modules_to_update with
      | none =>
        rw [training_step_ge_ok_remote_unbound cfg col c0 hgate hok hrem hmods]
          at hres
        exact Option.noConfusion hres
      | some ms =>
        rw [training_step_ge_ok_remote cfg col c0 ms hgate hok hrem hmods]
        refine ⟨⟨_, rfl⟩, ?_⟩
        intro hmem
        rcases List.mem_append.mp hmem with h2 | h3
        · rcases List.mem_append.mp h2 with hc | hm
          · exact (collectTrace_flags col _ 0 _ hc).2.2.2.2.2 rfl
          · exact (theLoop_events_flags cfg col c0 _ hm).2.2 rfl
        · simp at h3
    · intro hrem0
      rw [training_step_ge_ok_local cfg col c0 hgate hok hrem0]
      refine ⟨⟨_, rfl⟩, ?_⟩
      intro hmem
      rcases List.mem_append.mp hmem with h2 | h3
      · rcases List.mem_append.mp h2 with hc | hm
        · exact (collectTrace_flags col _ 0 _ hc).2.2.2.2.1 rfl
        · exact (theLoop_events_flags cfg col c0 _ hm).2.1 rfl
      · simp at h3

/-- Witness for C4 at the concrete local-only run: the iteration ends by
setting the learner weights on the local worker and never syncs to remote
workers. -/
theorem C4_weight_broadcast_witness :
    (∃ pre, (SAC.training_step cfgA colA counters0).trace
        = pre ++ [Event.setLocalWeights]) ∧
    Event.syncRemoteWeights ∉ (SAC.training_step cfgA colA counters0).trace :=
  (C4_weight_broadcast cfgA colA counters0 resultA (by decide) rfl).2 rfl

/-- Closed form of the counters after the COLLECT phase. -/
theorem countersAfterCollect_eq (cfg : SACConfig) (col : Collaborators)
    (c0 : Counters) :
    countersAfterCollect cfg col c0 =
      { numAgentStepsSampled :=
          c0.numAgentStepsSampled +
            collectedSteps col 0 (calculate_rr_weights cfg).1,
        numEnvStepsSampled :=
          c0.numEnvStepsSampled +
            collectedSteps col 0 (calculate_rr_weights cfg).1,
        numAgentStepsTrained := c0.numAgentStepsTrained,
        numEnvStepsTrained := c0.numEnvStepsTrained,
        lastTargetUpdateTs := c0.lastTargetUpdateTs } := by
  unfold countersAfterCollect
  rw [collectCounters_eq col]

/-- The final counters of a `training_step` call come either straight from
the COLLECT phase (gate blocked) or from the TRAIN phase. -/
theorem training_step_counters_cases (cfg : SACConfig) (col : Collaborators)
    (c0 : Counters) :
    (SAC.training_step cfg col c0).counters = countersAfterCollect cfg col c0 ∨
    (SAC.training_step cfg col c0).counters = (theLoop cfg col c0).1.counters := by
  unfold SAC.training_step
  split
  · split
    · split
      · split
        · right; rfl
        · right; rfl
      · right; rfl
    · right; rfl
  · left; rfl

/-- The TRAIN phase relative to the post-collect counters: sampled counters
and the last-update timestep unchanged, trained counters only grow. -/
theorem theLoop_counters (cfg : SACConfig) (col : Collaborators) (c0 : Counters) :
    ((theLoop cfg col c0).1.counters.numAgentStepsSampled
        = (countersAfterCollect cfg col c0).numAgentStepsSampled) ∧
    ((theLoop cfg col c0).1.counters.numEnvStepsSampled
        = (countersAfterCollect cfg col c0).numEnvStepsSampled) ∧
    ((theLoop cfg col c0).1.counters.lastTargetUpdateTs
        = (countersAfterCollect cfg col c0).lastTargetUpdateTs) ∧
    ((countersAfterCollect cfg col c0).numAgentStepsTrained
        ≤ (theLoop cfg col c0).1.counters.numAgentStepsTrained) ∧
    ((countersAfterCollect cfg col c0).numEnvStepsTrained
        ≤ (theLoop cfg col c0).1.counters.numEnvStepsTrained) :=
  trainLoop_counters cfg col (calculate_rr_weights cfg).2 0
    (initTrainState cfg col c0)

/-- Claim C5: every `training_step` call leaves each cumulative step
counter (agent/env steps sampled, agent/env steps trained) greater than or
equal to its value before the call - the orchestrator never resets a
counter. -/
theorem C5_counters_monotone (cfg : SACConfig) (col : Collaborators)
    (c0 : Counters) :
    c0.numAgentStepsSampled
        ≤ (SAC.training_step cfg col c0).counters.numAgentStepsSampled ∧
    c0.numEnvStepsSampled
        ≤ (SAC.training_step cfg col c0).counters.numEnvStepsSampled ∧
    c0.numAgentStepsTrained
        ≤ (SAC.training_step cfg col c0).counters.numAgentStepsTrained ∧
    c0.numEnvStepsTrained
        ≤ (SAC.training_step cfg col c0).counters.numEnvStepsTrained := by
  have hca := countersAfterCollect_eq cfg col c0
  rcases training_step_counters_cases cfg col c0 with h | h <;> rw [h]
  · rw [hca]
    refine ⟨?_, ?_, ?_, ?_⟩ <;> simp
  · rcases theLoop_counters cfg col c0 with ⟨e1, e2, e3, e4, e5⟩
    simp only [hca] at e1 e2 e3 e4 e5
    refine ⟨?_, ?_, ?_, ?_⟩ <;> omega

/-- Claim C10: in every `training_step` call both sampled-step counters
grow by exactly the total length of the collected episodes, so agent-steps
-sampled and env-steps-sampled stay equal whenever they start equal. -/
theorem C10_sampled_counters (cfg : SACConfig) (col : Collaborators)
    (c0 : Counters) :
    ((SAC.training_step cfg col c0).counters.numAgentStepsSampled
        = c0.numAgentStepsSampled +
            collectedSteps col 0 (calculate_rr_weights cfg).1) ∧
    ((SAC.training_step cfg col c0).counters.numEnvStepsSampled
        = c0.numEnvStepsSampled +
            collectedSteps col 0 (calculate_rr_weights cfg).1) ∧
    (c0.numAgentStepsSampled = c0.numEnvStepsSampled →
      (SAC.training_step cfg col c0).counters.numAgentStepsSampled
        = (SAC.training_step cfg col c0).counters.numEnvStepsSampled) := by
  have hca := countersAfterCollect_eq cfg col c0
  have key : ((SAC.training_step cfg col c0).counters.numAgentStepsSampled
        = c0.numAgentStepsSampled +
            collectedSteps col 0 (calculate_rr_weights cfg).1) ∧
      ((SAC.training_step cfg col c0).counters.numEnvStepsSampled
        = c0.numEnvStepsSampled +
            collectedSteps col 0 (calculate_rr_weights cfg).1) := by
    rcases training_step_counters_cases cfg col c0 with h | h <;> rw [h]
    · rw [hca]
      exact ⟨rfl, rfl⟩
    · rcases theLoop_counters cfg col c0 with ⟨e1, e2, _, _, _⟩
      simp only [hca] at e1 e2
      exact ⟨e1, e2⟩
  obtain ⟨k1, k2⟩ := key
  exact ⟨k1, k2, fun he => by omega⟩

/-- Witness for C10 at the concrete run: equal counters in, equal counters
out. -/
theorem C10_sampled_counters_witness :
    (SAC.training_step cfgA colA counters0).counters.numAgentStepsSampled
      = (SAC.training_step cfgA colA counters0).counters.numEnvStepsSampled :=
  (C10_sampled_counters cfgA colA counters0).2.2 rfl

/-- A fully successful TRAIN phase records exactly `train_rounds` learner
updates and buffer samples. -/
theorem theLoop_counts (cfg : SACConfig) (col : Collaborators) (c0 : Counters)
    (hok : (theLoop cfg col c0).2.2 = true) :
    countEv (theLoop cfg col c0).2.1 Event.isLearnerUpdate
        = (calculate_rr_weights cfg).2 ∧
    countEv (theLoop cfg col c0).2.1 Event.isBufferSample
        = (calculate_rr_weights cfg).2 :=
  trainLoop_counts_ok cfg col (calculate_rr_weights cfg).2 0
    (initTrainState cfg col c0) hok

/-- Claim C6: each `training_step` call recomputes the round-robin weights
from the current configuration and executes exactly that many rounds: the
trace holds exactly `collect_rounds` buffer-add events and - past the
warm-up gate - exactly `train_rounds` learner updates (none during
warm-up). -/
theorem C6_rate_controller_rounds (cfg : SACConfig) (col : Collaborators)
    (c0 : Counters) (rd : ResultDict)
    (hres : (SAC.training_step cfg col c0).results = some rd) :
    countEv (SAC.training_step cfg col c0).trace Event.isBufferAdd
        = (calculate_rr_weights cfg).1 ∧
    (cfg.num_steps_sampled_before_learning_starts
        ≤ currentTsAfterCollect cfg col c0 →
      countEv (SAC.training_step cfg col c0).trace Event.isLearnerUpdate
        = (calculate_rr_weights cfg).2) ∧
    (currentTsAfterCollect cfg col c0
        < cfg.num_steps_sampled_before_learning_starts →
      countEv (SAC.training_step cfg col c0).trace Event.isLearnerUpdate = 0) := by
  have hctAdd : countEv (ctraceOf cfg col) Event.isBufferAdd
      = (calculate_rr_weights cfg).1 :=
    collectTrace_count_bufferAdd col (calculate_rr_weights cfg).1 0
  have hctLearn : countEv (ctraceOf cfg col) Event.isLearnerUpdate = 0 :=
    countEv_zero _ _ (fun e he => (collectTrace_flags col _ 0 e he).2.1)
  by_cases hgate : cfg.num_steps_sampled_before_learning_starts
      ≤ currentTsAfterCollect cfg col c0
  · cases hok : (theLoop cfg col c0).2.2 with
    | false =>
      rw [training_step_ge_fail cfg col c0 hgate hok] at hres
      exact Option.noConfusion hres
    | true =>
      have htevsAdd : countEv (theLoop cfg col c0).2.1 Event.isBufferAdd = 0 :=
        countEv_zero _ _ (fun e he => (theLoop_events_flags cfg col c0 e he).1)
      have htevsLearn := (theLoop_counts cfg col c0 hok).1
      by_cases hrem : 0 < col.numRemoteWorkers
      · cases hmods : (theLoop cfg col c0).1.modules_to_update with
        | none =>
          rw [training_step_ge_ok_remote_unbound cfg col c0 hgate hok hrem hmods]
            at hres
          exact Option.noConfusion hres
        | some ms =>
          rw [training_step_ge_ok_remote cfg col c0 ms hgate hok hrem hmods]
          refine ⟨?_, fun _ => ?_, fun hlt => absurd hgate (by omega)⟩
          · rw [countEv_append, countEv_append, hctAdd, htevsAdd]
            rfl
          · rw [countEv_append, countEv_append, hctLearn, htevsLearn]
            have h0 : countEv [Event.syncRemoteWeights] Event.isLearnerUpdate
                = 0 := rfl
            omega
      · have hrem0 : col.numRemoteWorkers = 0 := by omega
        rw [training_step_ge_ok_local cfg col c0 hgate hok hrem0]
        refine ⟨?_, fun _ => ?_, fun hlt => absurd hgate (by omega)⟩
        · rw [countEv_append, countEv_append, hctAdd, htevsAdd]
          rfl
        · rw [countEv_append, countEv_append, hctLearn, htevsLearn]
          have h0 : countEv [Event.setLocalWeights] Event.isLearnerUpdate
              = 0 := rfl
          omega
  · rw [training_step_of_lt cfg col c0 (by omega)]
    exact ⟨hctAdd, fun hge => absurd hge hgate, fun _ => hctLearn⟩

/-- Witness for C6 at the concrete run with natural weights (1, 1): one
collect round, one train round. -/
theorem C6_rate_controller_rounds_witness :
    countEv (SAC.training_step cfgA colA counters0).trace Event.isBufferAdd = 1 ∧
    countEv (SAC.training_step cfgA colA counters0).trace
        Event.isLearnerUpdate = 1 := by
  have h := C6_rate_controller_rounds cfgA colA counters0 resultA rfl
  exact ⟨h.1.trans rfl, (h.2.1 (by decide)).trans rfl⟩

/-- The events of collect round `r` are in the collect trace of any window
of rounds containing `r`. -/
theorem collectTrace_mem_round (col : Collaborators) :
    ∀ (k r0 r : Nat), r0 ≤ r → r < r0 + k →
      ∀ e ∈ collectRoundEvents col r, e ∈ collectTrace col r0 k := by
  intro k
  induction k with
  | zero => intro r0 r h1 h2; omega
  | succ k ih =>
    intro r0 r h1 h2 e he
    unfold collectTrace
    by_cases hr : r = r0
    · subst hr
      exact List.mem_append_left _ he
    · exact List.mem_append_right _ (ih (r0 + 1) r (by omega) (by omega) e he)

/-- Collect-phase events survive into the final `training_step` trace. -/
theorem training_step_trace_collect_mem (cfg : SACConfig) (col : Collaborators)
    (c0 : Counters) :
    ∀ e ∈ ctraceOf cfg col, e ∈ (SAC.training_step cfg col c0).trace := by
  intro e he
  unfold SAC.training_step
  split
  · split
    · split
      · split
        · exact List.mem_append_left _ he
        · exact List.mem_append_left _ (List.mem_append_left _ he)
      · exact List.mem_append_left _ (List.mem_append_left _ he)
    · exact List.mem_append_left _ he
  · exact he

/-- Claim C8: in every COLLECT round, the sampler runs once on the local
worker when no remote workers exist and fans out across all remote workers
otherwise, and in both cases the per-worker results are flattened into the
single episode list handed to the replay buffer. -/
theorem C8_collect_fanout (cfg : SACConfig) (col : Collaborators) (c0 : Counters)
    (r : Nat) (hr : r < (calculate_rr_weights cfg).1) :
    (col.numRemoteWorkers = 0 →
      Event.sampleLocal r ∈ (SAC.training_step cfg col c0).trace ∧
      Event.bufferAdd r (List.flatten [col.localSample r])
          ∈ (SAC.training_step cfg col c0).trace) ∧
    (0 < col.numRemoteWorkers →
      (∀ w, w < col.numRemoteWorkers →
        Event.sampleRemote r w ∈ (SAC.training_step cfg col c0).trace) ∧
      Event.bufferAdd r
          (((List.range col.numRemoteWorkers).map (col.remoteSample r)).flatten)
          ∈ (SAC.training_step cfg col c0).trace) := by
  constructor
  · intro h0
    have hcr : collectRound col r
        = (List.flatten [col.localSample r], [Event.sampleLocal r]) := by
      unfold collectRound
      rw [if_pos (by omega)]
    have h1 : Event.sampleLocal r ∈ collectRoundEvents col r := by
      unfold collectRoundEvents
      rw [hcr]
      simp
    have h2 : Event.bufferAdd r (List.flatten [col.localSample r])
        ∈ collectRoundEvents col r := by
      unfold collectRoundEvents
      rw [hcr]
      simp
    exact ⟨training_step_trace_collect_mem cfg col c0 _
        (collectTrace_mem_round col (calculate_rr_weights cfg).1 0 r
          (by omega) (by omega) _ h1),
      training_step_trace_collect_mem cfg col c0 _
        (collectTrace_mem_round col (calculate_rr_weights cfg).1 0 r
          (by omega) (by omega) _ h2)⟩
  · intro hpos
    have hcr : collectRound col r
        = (((List.range col.numRemoteWorkers).map (col.remoteSample r)).flatten,
           (List.range col.numRemoteWorkers).map (Event.sampleRemote r)) := by
      unfold collectRound
      rw [if_neg (by omega)]
    constructor
    · intro w hw
      have h1 : Event.sampleRemote r w ∈ collectRoundEvents col r := by
        unfold collectRoundEvents
        rw [hcr]
        exact List.mem_append_left _
          (List.mem_map.mpr ⟨w, List.mem_range.mpr hw, rfl⟩)
      exact training_step_trace_collect_mem cfg col c0 _
        (collectTrace_mem_round col (calculate_rr_weights cfg).1 0 r
          (by omega) (by omega) _ h1)
    · have h2 : Event.bufferAdd r
          (((List.range col.numRemoteWorkers).map (col.remoteSample r)).flatten)
          ∈ collectRoundEvents col r := by
        unfold collectRoundEvents
        rw [hcr]
        simp
      exact training_step_trace_collect_mem cfg col c0 _
        (collectTrace_mem_round col (calculate_rr_weights cfg).1 0 r
          (by omega) (by omega) _ h2)

/-- Witness for C8 at the concrete local-only run: round 0 samples the
local worker once and adds the flattened episode list to the buffer. -/
theorem C8_collect_fanout_witness :
    Event.sampleLocal 0 ∈ (SAC.training_step cfgA colA counters0).trace ∧
    Event.bufferAdd 0 (List.flatten [colA.localSample 0])
        ∈ (SAC.training_step cfgA colA counters0).trace :=
  (C8_collect_fanout cfgA colA counters0 0 (by decide)).1 rfl
